import Mathlib

/-!
# script.js : a shallow embedding

The page script has four parts that the development below follows:

* the anchor scroller (lines 5-10), modelled by `anchorClick`;
* the navigation drawer (lines 13-112), modelled by `openNav`, `closeNav`,
  `trapListener` and the event dispatcher `step`;
* the theme controller (lines 115-146), modelled by `setTheme` and `themeInit`;
* the experience counter (lines 148-159), modelled by `experience`.

The document, the persistent store and the closure variables of the
DOMContentLoaded handler are explicit fields of `State`.  Callbacks handed to
`requestAnimationFrame` and `setTimeout` are kept in queues and run by the
events `animationFrame` and `timeout`.

Modelling conventions for the browser.  `document.activeElement` is `none` when
nothing has focus (the browser then reports the body, on which `focus()` does
nothing).  An element matched by the selector of line 58 need not be one the browser
can focus (a `[role="button"]` without tabindex is not): `focus` on it does nothing.
The element recorded in `previousActive` held focus when it was recorded, so the
browser can focus it, and every DOM element exposes a `focus` method.  The page's
own markup holds no `.nav-backdrop` element, so every such element was made by
`createBackdrop` and carries its click listener.
-/

namespace Script

/-! ## Data model -/

/-- DOM elements are compared by node identity. -/
abbrev Elem := Nat

/-- One `div.nav-backdrop` element. -/
structure Backdrop where
  /-- node identity -/
  id : Nat
  /-- whether classList holds the class visible -/
  visible : Bool
  /-- whether the node is still in the document -/
  attached : Bool
deriving DecidableEq, Repr

/-- One direct child of the `.nav` container, as the start-up pruning sees it. -/
structure NavChild where
  /-- whether `(ch.textContent || '').trim() === ''` -/
  blankText : Bool
  /-- the value of `ch.children.length` -/
  childCount : Nat
deriving DecidableEq, Repr

/-- One element returned by the selector query of line 58. -/
structure Candidate where
  /-- the element -/
  el : Elem
  /-- whether `el.hasAttribute('disabled')` -/
  disabled : Bool
  /-- whether the browser can give it focus: true for a link with href or a
  button, false for instance for a `[role="button"]` without tabindex -/
  focusable : Bool
deriving DecidableEq, Repr

/-- The part of the document the script reads or writes.  An attribute is
`none` when it is not set; an element that may be missing is a `Bool` flag or
an `Option`. -/
structure Dom where
  /-- whether `document.querySelector('.hamburger')` is non-null -/
  hamburger : Bool
  /-- whether `document.querySelector('.nav-links')` is non-null -/
  navLinks : Bool
  /-- whether `document.querySelector('.toggle')` is non-null -/
  toggle : Bool
  /-- children of `.nav`, `none` when there is no such element -/
  nav : Option (List NavChild)
  /-- whether `.theme-toggle .sun` exists -/
  sun : Bool
  /-- whether `.theme-toggle .moon` exists -/
  moon : Bool
  /-- aria-expanded of the hamburger -/
  hamburgerAriaExpanded : Option String
  /-- aria-label of the hamburger -/
  hamburgerAriaLabel : Option String
  /-- whether navLinks.classList holds the class active -/
  navActive : Bool
  /-- aria-hidden of navLinks -/
  navAriaHidden : Option String
  /-- the inline style `document.body.style.overflow` -/
  bodyOverflow : String
  /-- the value of `document.activeElement` -/
  activeElement : Option Elem
  /-- every backdrop element made so far, in creation order (which is document
  order for the attached ones, each being appended to the body) -/
  backdrops : List Backdrop
  /-- result of the selector query of line 58 on navLinks -/
  navCandidates : List Candidate
  /-- data-theme of the root element -/
  dataTheme : Option String
  /-- aria-checked of the toggle -/
  toggleAriaChecked : Option String
  /-- aria-hidden of the sun icon -/
  sunAriaHidden : Option String
  /-- aria-hidden of the moon icon -/
  moonAriaHidden : Option String
  /-- textContent of `#years-ex`, `none` when the element is missing -/
  yearsEx : Option String
  /-- textContent of `#years-ex-highlights`, `none` when the element is missing -/
  yearsExHighlights : Option String
deriving DecidableEq, Repr

/-- Document, persistent store, closure variables of the DOMContentLoaded
handler, listener registrations and pending callbacks. -/
structure State where
  /-- the document -/
  dom : Dom
  /-- the value of `localStorage.getItem('theme')`, `none` for null -/
  storedTheme : Option String
  /-- whether lines 103-112 ran: hamburger, link and Escape listeners exist -/
  wired : Bool
  /-- whether lines 132-137 ran: the toggle listeners exist -/
  toggleWired : Bool
  /-- closure variable `previousActive` -/
  previousActive : Option Elem
  /-- closure variable `focusableElements` -/
  focusableElements : List Candidate
  /-- closure variable `trapListener`: identity of the recorded function -/
  trapListener : Option Nat
  /-- trap functions registered for keydown on the document, oldest first -/
  keydownTraps : List Nat
  /-- identity given to the next function object made at line 63 -/
  nextClosure : Nat
  /-- pending animation-frame callbacks: the backdrop each will mark visible -/
  frames : List Nat
  /-- number of pending 260 ms removal callbacks -/
  timers : Nat
deriving DecidableEq, Repr

/-- What the handler reads from the environment when it runs. -/
structure Env where
  /-- `none` when `window.matchMedia` is missing, otherwise the `.matches` of
  the `(prefers-color-scheme: dark)` query -/
  matchMedia : Option Bool
  /-- the value of `now.getFullYear()` -/
  fullYear : Int
  /-- the value of `now.getMonth()`, January being 0 -/
  month : Nat
  /-- the value of `now.getDate()`; the script never reads it -/
  date : Nat
deriving DecidableEq, Repr

/-- The state right after the document is parsed and before the handler runs:
no closure variable is set and nothing is registered or pending. -/
def pageLoad (dom : Dom) (stored : Option String) : State :=
  { dom := dom, storedTheme := stored, wired := false, toggleWired := false,
    previousActive := none, focusableElements := [], trapListener := none,
    keydownTraps := [], nextClosure := 0, frames := [], timers := 0 }

/-! ## Theme controller (lines 115-146) -/

/-- Lines 117-130. -/
def setTheme (mode : String) (s : State) : State :=
  let dark : Bool := decide (mode = "dark")
  { s with
    dom := { s.dom with
      dataTheme := if dark then some "dark" else none
      toggleAriaChecked := some (if dark then "true" else "false")
      sunAriaHidden :=
        if s.dom.sun then some (if dark then "true" else "false") else s.dom.sunAriaHidden
      moonAriaHidden :=
        if s.dom.moon then some (if dark then "false" else "true") else s.dom.moonAriaHidden }
    storedTheme := some (if dark then "dark" else "") }

/-- Lines 132-135: the click listener of the toggle. -/
def toggleClick (s : State) : State :=
  let current : String := if s.dom.dataTheme = some "dark" then "dark" else ""
  setTheme (if current = "dark" then "" else "dark") s

/-- Line 143: truthiness of `window.matchMedia && window.matchMedia(..).matches`. -/
def prefersDark (env : Env) : Bool :=
  match env.matchMedia with
  | none => false
  | some b => b

/-- Lines 139-145: the mode handed to `setTheme` at start-up. -/
def initialMode (savedTheme : Option String) (env : Env) : String :=
  if savedTheme = some "dark" then "dark"
  else if prefersDark env then "dark" else ""

/-- Lines 139-145. -/
def themeInit (env : Env) (s : State) : State :=
  setTheme (initialMode s.storedTheme env) s

/-! ## Experience counter (lines 148-159) -/

/-- Line 149. -/
def startMonth : Int := 8

/-- Line 150. -/
def startYear : Int := 2015

/-- Line 152. -/
def months (env : Env) : Int :=
  (env.fullYear - startYear) * 12 + ((env.month : Int) - (startMonth - 1))

/-- Line 153: `Math.floor(months / 12)`, the quotient taken exactly. -/
def years (env : Env) : Int :=
  Int.floor (((months env : Int) : ℚ) / 12)

/-- Decimal text of an integer, as a template literal renders a number. -/
def numberToString (n : Int) : String :=
  if n < 0 then "-" ++ Nat.repr n.natAbs else Nat.repr n.natAbs

/-- Line 154. -/
def display (env : Env) : String :=
  numberToString (years env) ++ "+"

/-- Lines 148-159. -/
def experience (env : Env) (s : State) : State :=
  { s with dom := { s.dom with
      yearsEx := s.dom.yearsEx.map (fun _ => display env)
      yearsExHighlights := s.dom.yearsExHighlights.map (fun _ => display env) } }

/-! ## Navigation drawer (lines 34-112) -/

/-- The value of `document.querySelector('.nav-backdrop')`: the first backdrop in the
document. -/
def queryBackdrop (s : State) : Option Backdrop :=
  s.dom.backdrops.find? (fun b => b.attached)

/-- Apply `f` to the backdrop element whose identity is `i`. -/
def updateBackdrop (i : Nat) (f : Backdrop → Backdrop) (s : State) : State :=
  { s with dom := { s.dom with
      backdrops := s.dom.backdrops.map (fun b => if b.id = i then f b else b) } }

/-- Lines 37-46.  Returns the identity of the backdrop together with the new
state.  A new element gets an identity no earlier element has. -/
def createBackdrop (s : State) : Nat × State :=
  match queryBackdrop s with
  | some b => (b.id, s)
  | none =>
    let i := (s.dom.backdrops.map (fun b => b.id + 1)).foldr max 0
    (i, { s with dom := { s.dom with
            backdrops := s.dom.backdrops ++ [{ id := i, visible := false, attached := true }] } })

/-- Focus lands on `el`. -/
def setActiveElement (el : Elem) (s : State) : State :=
  { s with dom := { s.dom with activeElement := some el } }

/-- The method `focus()` called on an element of the drawer: focus lands on it
when the browser can focus it, and nothing happens otherwise. -/
def focus (c : Candidate) (s : State) : State :=
  if c.focusable then setActiveElement c.el s else s

/-- Lines 58-59: the selector query followed by the filter on disabled. -/
def collectFocusable (s : State) : List Candidate :=
  s.dom.navCandidates.filter (fun c => !c.disabled)

/-- Lines 48-81. -/
def openNav (s : State) : State :=
  let (backdrop, s1) := createBackdrop s
  let s2 : State :=
    { s1 with
      frames := s1.frames ++ [backdrop]
      dom := { s1.dom with
        navActive := true
        navAriaHidden := some "false"
        hamburgerAriaExpanded := some "true"
        bodyOverflow := "hidden" }
      previousActive := s1.dom.activeElement
      focusableElements := collectFocusable s1 }
  let s3 : State :=
    match s2.focusableElements with
    | [] => s2
    | el :: _ => focus el s2
  { s3 with
    trapListener := some s3.nextClosure
    keydownTraps := s3.keydownTraps ++ [s3.nextClosure]
    nextClosure := s3.nextClosure + 1 }

/-- Lines 63-79: the body of the function stored in `trapListener`.  The `Bool`
tells whether `e.preventDefault()` was called. -/
def trapListener (s : State) (key : String) (shiftKey : Bool) : State × Bool :=
  if key ≠ "Tab" then (s, false)
  else
    match s.focusableElements.head?, s.focusableElements.getLast? with
    | some first, some last =>
      if shiftKey then
        if s.dom.activeElement = some first.el then (focus last s, true) else (s, false)
      else
        if s.dom.activeElement = some last.el then (focus first s, true) else (s, false)
    | _, _ => (s, false)

/-- Lines 83-101.  At line 96 the recorded element is one that held focus, so
its `focus()` takes effect. -/
def closeNav (s : State) : State :=
  let s1 : State :=
    match queryBackdrop s with
    | some b => updateBackdrop b.id (fun x => { x with visible := false }) s
    | none => s
  let s2 : State :=
    { s1 with dom := { s1.dom with
        navActive := false
        navAriaHidden := some "true"
        hamburgerAriaExpanded := some "false"
        bodyOverflow := "" } }
  let s3 : State :=
    match s2.trapListener with
    | some l => { s2 with keydownTraps := s2.keydownTraps.filter (fun x => x ≠ l)
                          trapListener := none }
    | none => s2
  let s4 : State :=
    match s3.previousActive with
    | some el => setActiveElement el s3
    | none => s3
  { s4 with timers := s4.timers + 1 }

/-- Lines 97-100: the callback handed to `setTimeout`. -/
def removeBackdrop (s : State) : State :=
  match queryBackdrop s with
  | some b => updateBackdrop b.id (fun x => { x with attached := false }) s
  | none => s

/-- Line 50: the callback handed to `requestAnimationFrame` for backdrop `i`. -/
def showBackdrop (i : Nat) (s : State) : State :=
  updateBackdrop i (fun x => { x with visible := true }) s

/-- Lines 24-32: drop the empty direct children of `.nav`. -/
def pruneNav (s : State) : State :=
  { s with dom := { s.dom with
      nav := s.dom.nav.map
        (fun cs => cs.filter (fun ch => !(ch.blankText && ch.childCount == 0))) } }

/-! ## The DOMContentLoaded handler (lines 13-160) -/

/-- Lines 13-160. -/
def domContentLoaded (env : Env) (s : State) : State :=
  if !s.dom.hamburger || !s.dom.navLinks then s
  else
    let s1 := pruneNav s
    let s2 : State :=
      { s1 with
        dom := { s1.dom with
          hamburgerAriaExpanded := some "false"
          hamburgerAriaLabel := some "Open navigation" }
        wired := true }
    let s3 : State :=
      if s2.dom.toggle then themeInit env { s2 with toggleWired := true } else s2
    experience env s3

/-! ## Events -/

/-- What can happen after start-up. -/
inductive Event where
  /-- a click on the hamburger (line 103) -/
  | hamburgerClick
  /-- a click on the backdrop (line 43) -/
  | backdropClick
  /-- a click on a link inside navLinks (line 109) -/
  | linkClick
  /-- a keydown reaching the document (lines 80 and 112) -/
  | keydown (key : String) (shiftKey : Bool)
  /-- a click on the theme toggle, by pointer or by Enter or Space (lines 132-137) -/
  | toggleClick
  /-- the browser runs the pending animation-frame callbacks -/
  | animationFrame
  /-- the browser runs the oldest pending 260 ms callback -/
  | timeout
  /-- the user moves focus to an element that can take it -/
  | focusMove (el : Elem)
deriving DecidableEq, Repr

/-- Dispatch of a keydown on the document: the Escape listener of line 112 was
registered first, then every trap still registered runs. -/
def keydown (s : State) (key : String) (shiftKey : Bool) : State :=
  let s1 := if s.wired && decide (key = "Escape") then closeNav s else s
  s1.keydownTraps.foldl (fun st _ => (trapListener st key shiftKey).1) s1

/-- One event, handled to completion.  The listeners of lines 103-112 exist
only when the handler got past its early return (`wired`); a backdrop can be clicked
only while one is in the document. -/
def step (s : State) : Event → State
  | .hamburgerClick =>
    if s.wired then (if s.dom.navActive then closeNav s else openNav s) else s
  | .backdropClick =>
    if s.wired && (queryBackdrop s).isSome then closeNav s else s
  | .linkClick => if s.wired then closeNav s else s
  | .keydown key shiftKey => keydown s key shiftKey
  | .toggleClick => if s.toggleWired then toggleClick s else s
  | .animationFrame =>
    { s.frames.foldl (fun st i => showBackdrop i st) s with frames := [] }
  | .timeout =>
    if s.timers = 0 then s else { removeBackdrop s with timers := s.timers - 1 }
  | .focusMove el => setActiveElement el s

/-- A sequence of events, in order. -/
def run (s : State) (evs : List Event) : State :=
  evs.foldl step s

/-- The backdrops that are in the document. -/
def attachedBackdrops (s : State) : List Backdrop :=
  s.dom.backdrops.filter (fun b => b.attached)

/-! ## Anchor scroller (lines 5-10) -/

/-- The exceptions the click handler can raise. -/
inductive JsError where
  /-- a property read on null -/
  | typeError
  /-- a string that is not a selector -/
  | syntaxError
deriving DecidableEq, Repr

/-- What one run of the click handler did. -/
structure ClickOutcome where
  /-- whether `e.preventDefault()` was called -/
  defaultPrevented : Bool
  /-- the element `scrollIntoView` was called on -/
  scrolledTo : Option Elem
  /-- the exception the handler ended with -/
  thrown : Option JsError
deriving DecidableEq, Repr

/-- Lines 6-9, over the document's `querySelector`: it raises on a string that
is no selector, yields `none` (null) when nothing matches, and the first
match otherwise. -/
def anchorClick (querySelector : String → Except JsError (Option Elem)) (href : String) :
    ClickOutcome :=
  match querySelector href with
  | .error err => { defaultPrevented := true, scrolledTo := none, thrown := some err }
  | .ok none => { defaultPrevented := true, scrolledTo := none, thrown := some .typeError }
  | .ok (some el) => { defaultPrevented := true, scrolledTo := some el, thrown := none }

/-- The `querySelector` of a document whose elements carry the given ids (an
element's identity is its position in the list).  It is meant for id selectors, the
character # followed by an identifier, as the hrefs of in-page anchors are; a lone #
is no selector. -/
def querySelectorById (ids : List String) (selector : String) : Except JsError (Option Elem) :=
  match selector.data with
  | '#' :: c :: rest =>
    .ok (let i := ids.indexOf (String.mk (c :: rest)); if i < ids.length then some i else none)
  | _ => .error .syntaxError

/-! ## Concrete pages used as test inputs -/

/-- A page with every element the script looks for: the hamburger is element 0,
the drawer holds the links 1, 2 and 3, and element 9 is a field outside it. -/
def fullPage : Dom :=
  { hamburger := true, navLinks := true, toggle := true,
    nav := some [{ blankText := false, childCount := 2 }, { blankText := true, childCount := 0 }],
    sun := true, moon := true,
    hamburgerAriaExpanded := none, hamburgerAriaLabel := none,
    navActive := false, navAriaHidden := none, bodyOverflow := "",
    activeElement := some 0, backdrops := [],
    navCandidates := [{ el := 1, disabled := false, focusable := true },
                      { el := 2, disabled := false, focusable := true },
                      { el := 3, disabled := false, focusable := true }],
    dataTheme := none, toggleAriaChecked := none, sunAriaHidden := none, moonAriaHidden := none,
    yearsEx := some "0+", yearsExHighlights := some "0+" }

/-- The same page without the hamburger button. -/
def pageNoHamburger : Dom :=
  { fullPage with hamburger := false }

/-- The same page without the theme toggle. -/
def pageNoToggle : Dom :=
  { fullPage with toggle := false }

/-- The same page, the first element of the drawer being a `div role="button"`
without tabindex (element 1), followed by the links 2 and 3. -/
def pageInertButton : Dom :=
  { fullPage with
    navCandidates := [{ el := 1, disabled := false, focusable := false },
                      { el := 2, disabled := false, focusable := true },
                      { el := 3, disabled := false, focusable := true }] }

/-- A system that prefers dark, on 2024-03-15. -/
def darkEnv : Env :=
  { matchMedia := some true, fullYear := 2024, month := 2, date := 15 }

/-- The state of `fullPage` once the handler has run, nothing persisted. -/
def readyPage : State :=
  domContentLoaded darkEnv (pageLoad fullPage none)

/-- The drawer of `pageInertButton`, opened by the hamburger, focus then moved
to its last link. -/
def inertButtonOnLast : State :=
  run (domContentLoaded darkEnv (pageLoad pageInertButton none)) [.hamburgerClick, .focusMove 3]

/-- Open, close and open again by three hamburger clicks, the frame callbacks
running where they fall due, and then the 260 ms callback of the close. -/
def rapidReopen : List Event :=
  [.hamburgerClick, .animationFrame, .hamburgerClick, .hamburgerClick, .animationFrame, .timeout]

/-- The same clicks with the 260 ms callback running ahead of the last frame
callback. -/
def rapidReopenTimerFirst : List Event :=
  [.hamburgerClick, .animationFrame, .hamburgerClick, .hamburgerClick, .timeout, .animationFrame]

/-- Events that leave the drawer open: a focus move, or a keydown other than
Escape (which only the focus trap acts on). -/
def staysOpen : Event → Bool
  | .focusMove _ => true
  | .keydown key _ => key != "Escape"
  | _ => false

/-- Events that close an open drawer: the hamburger again, the backdrop, a
drawer link, or Escape. -/
def closeTrigger : Event → Bool
  | .hamburgerClick => true
  | .backdropClick => true
  | .linkClick => true
  | .keydown key _ => key == "Escape"
  | _ => false

/-- The drawer is closed with no trap recorded or registered, or open with the
recorded trap as the one registered trap. -/
def TrapInv (s : State) : Prop :=
  (s.dom.navActive = false ∧ s.trapListener = none ∧ s.keydownTraps = []) ∨
  (∃ l, s.dom.navActive = true ∧ s.trapListener = some l ∧ s.keydownTraps = [l])

/-- While the drawer stays open after `e` had focus: listeners in place, drawer
active, `e` recorded for restoration, a backdrop in the document. -/
def OpenedFrom (e : Elem) (s : State) : Prop :=
  s.wired = true ∧ s.dom.navActive = true ∧ s.previousActive = some e ∧
    (queryBackdrop s).isSome = true

/-! ## Theme controller: theorems -/

/-- C4: after `setTheme(mode)` the persisted value is "dark" and the root has
data-theme "dark" when mode is 'dark', otherwise the persisted value is the empty
string and the root has no data-theme; hence persisted "dark" holds exactly when the
root carries data-theme "dark", and aria-checked is 'true' exactly then. -/
theorem setTheme_marker_agrees_with_store (mode : String) (s : State) :
    (setTheme mode s).storedTheme = some (if mode = "dark" then "dark" else "") ∧
    (setTheme mode s).dom.dataTheme = (if mode = "dark" then some "dark" else none) ∧
    (setTheme mode s).dom.toggleAriaChecked = some (if mode = "dark" then "true" else "false") ∧
    ((setTheme mode s).storedTheme = some "dark" ↔
      (setTheme mode s).dom.dataTheme = some "dark") ∧
    ((setTheme mode s).dom.toggleAriaChecked = some "true" ↔
      (setTheme mode s).dom.dataTheme = some "dark") ∧
    (setTheme "dark" s).storedTheme = some "dark" ∧
    (setTheme "" s).storedTheme = some "" := by
  refine ⟨?_, ?_, ?_, ?_, ?_, ?_, ?_⟩
  · by_cases h : mode = "dark" <;> simp [setTheme, h]
  · by_cases h : mode = "dark" <;> simp [setTheme, h]
  · by_cases h : mode = "dark" <;> simp [setTheme, h]
  · by_cases h : mode = "dark" <;> simp [setTheme, h]
  · by_cases h : mode = "dark" <;> simp [setTheme, h]
  · simp [setTheme]
  · simp [setTheme]

/-- The handler past its early return, spelled out. -/
theorem domContentLoaded_of_present (env : Env) (s : State)
    (hh : s.dom.hamburger = true) (hn : s.dom.navLinks = true) :
    domContentLoaded env s =
      experience env
        (if (pruneNav s).dom.toggle then
          themeInit env
            { pruneNav s with
              dom := { (pruneNav s).dom with
                hamburgerAriaExpanded := some "false"
                hamburgerAriaLabel := some "Open navigation" }
              wired := true
              toggleWired := true }
        else
          { pruneNav s with
            dom := { (pruneNav s).dom with
              hamburgerAriaExpanded := some "false"
              hamburgerAriaLabel := some "Open navigation" }
            wired := true }) := by
  simp [domContentLoaded, hh, hn]

/-- The root marker after a start-up that reaches the theme step. -/
theorem dataTheme_after_startup (env : Env) (dom : Dom) (stored : Option String)
    (hh : dom.hamburger = true) (hn : dom.navLinks = true) (ht : dom.toggle = true) :
    (domContentLoaded env (pageLoad dom stored)).dom.dataTheme =
      (if initialMode stored env = "dark" then some "dark" else none) := by
  rw [domContentLoaded_of_present env _ hh hn]
  simp [pruneNav, pageLoad, ht, experience, themeInit, setTheme]

/-- C1, as the code has it: a persisted empty string does not pin Light.  On a
page with hamburger, nav-links and toggle, start-up with the persisted value ""
follows the system preference: Dark when the system prefers dark, Light when it does
not or when the signal is missing. -/
theorem startup_empty_follows_system (env : Env) (dom : Dom)
    (hh : dom.hamburger = true) (hn : dom.navLinks = true) (ht : dom.toggle = true) :
    initialMode (some "") env = (if env.matchMedia = some true then "dark" else "") ∧
    (domContentLoaded env (pageLoad dom (some ""))).dom.dataTheme =
      (if env.matchMedia = some true then some "dark" else none) := by
  have hm : initialMode (some "") env = (if env.matchMedia = some true then "dark" else "") := by
    rcases env with ⟨mm, y, m, d⟩
    rcases mm with _ | b
    · simp [initialMode, prefersDark]
    · cases b <;> simp [initialMode, prefersDark]
  refine ⟨hm, ?_⟩
  rw [dataTheme_after_startup env dom _ hh hn ht, hm]
  by_cases h : env.matchMedia = some true <;> simp [h]

/-- Witness for C1 as amended. -/
theorem startup_empty_follows_system_witness :
    initialMode (some "") darkEnv = (if darkEnv.matchMedia = some true then "dark" else "") ∧
    (domContentLoaded darkEnv (pageLoad fullPage (some ""))).dom.dataTheme =
      (if darkEnv.matchMedia = some true then some "dark" else none) :=
  startup_empty_follows_system darkEnv fullPage rfl rfl rfl

/-- C1 fails as stated: the toggle is present, the persisted value is the empty
string, the system prefers dark, and start-up calls `setTheme('dark')`: the root
ends with data-theme "dark". -/
theorem startup_empty_dark_system_is_dark :
    fullPage.toggle = true ∧
    (pageLoad fullPage (some "")).storedTheme = some "" ∧
    initialMode (some "") darkEnv = "dark" ∧
    (domContentLoaded darkEnv (pageLoad fullPage (some ""))).dom.dataTheme = some "dark" := by
  refine ⟨rfl, rfl, by decide, by decide⟩

/-- The start-up mode does not tell a stored value other than "dark" from a
missing one. -/
theorem initialMode_of_ne_dark (env : Env) (v : String) (hv : v ≠ "dark") :
    initialMode (some v) env = initialMode none env := by
  simp [initialMode, hv]

/-- C5, as the code has it: the theme step runs only behind the guards of lines
20 and 115.  On a start-up that reaches it (hamburger, nav-links and toggle
present), a persisted "dark" gives Dark whatever the system prefers; no
persisted value gives the system preference, Light when the signal is missing; and
a persisted value other than "dark" and "" gives the very state that no persisted
value gives. -/
theorem startup_theme_by_persisted_value (env : Env) (dom : Dom)
    (hh : dom.hamburger = true) (hn : dom.navLinks = true) (ht : dom.toggle = true) :
    (domContentLoaded env (pageLoad dom (some "dark"))).dom.dataTheme = some "dark" ∧
    (domContentLoaded env (pageLoad dom none)).dom.dataTheme =
      (match env.matchMedia with
       | some true => some "dark"
       | some false => none
       | none => none) ∧
    (∀ v : String, v ≠ "dark" → v ≠ "" →
      domContentLoaded env (pageLoad dom (some v)) = domContentLoaded env (pageLoad dom none)) := by
  refine ⟨?_, ?_, ?_⟩
  · rw [dataTheme_after_startup env dom _ hh hn ht]
    simp [initialMode]
  · rw [dataTheme_after_startup env dom _ hh hn ht]
    rcases env with ⟨mm, y, m, d⟩
    rcases mm with _ | b
    · simp [initialMode, prefersDark]
    · cases b <;> simp [initialMode, prefersDark]
  · intro v hv _
    rw [domContentLoaded_of_present env _ hh hn, domContentLoaded_of_present env _ hh hn]
    simp [pruneNav, pageLoad, ht, themeInit, setTheme, initialMode_of_ne_dark env v hv]

/-- Witness for C5. -/
theorem startup_theme_by_persisted_value_witness :
    (domContentLoaded darkEnv (pageLoad fullPage (some "dark"))).dom.dataTheme = some "dark" ∧
    (domContentLoaded darkEnv (pageLoad fullPage none)).dom.dataTheme =
      (match darkEnv.matchMedia with
       | some true => some "dark"
       | some false => none
       | none => none) ∧
    (∀ v : String, v ≠ "dark" → v ≠ "" →
      domContentLoaded darkEnv (pageLoad fullPage (some v)) =
        domContentLoaded darkEnv (pageLoad fullPage none)) :=
  startup_theme_by_persisted_value darkEnv fullPage rfl rfl rfl

/-- C5 fails as stated: with "dark" persisted and a system that prefers dark,
a page without the theme toggle (guard of line 115) and a page without the
hamburger (early return of line 20) both finish start-up with no data-theme on the
root, that is Light, and with the toggle listeners never registered. -/
theorem startup_dark_not_applied_behind_guards :
    (pageLoad pageNoToggle (some "dark")).storedTheme = some "dark" ∧
    prefersDark darkEnv = true ∧
    (domContentLoaded darkEnv (pageLoad pageNoToggle (some "dark"))).dom.dataTheme = none ∧
    (domContentLoaded darkEnv (pageLoad pageNoToggle (some "dark"))).toggleWired = false ∧
    (domContentLoaded darkEnv (pageLoad pageNoHamburger (some "dark"))).dom.dataTheme = none ∧
    (domContentLoaded darkEnv (pageLoad pageNoHamburger (some "dark"))).toggleWired = false := by
  refine ⟨rfl, by decide, by decide, by decide, by decide, by decide⟩

/-! ## Early return: theorems -/

/-- C10: when the hamburger or the nav-links element is missing the handler
returns at line 20 and changes nothing: data-theme, the persisted theme, the
aria-checked of the toggle and the two experience texts are as before, whether or
not the toggle and the text elements exist. -/
theorem early_return_changes_nothing (env : Env) (s : State)
    (h : s.dom.hamburger = false ∨ s.dom.navLinks = false) :
    domContentLoaded env s = s ∧
    (domContentLoaded env s).dom.dataTheme = s.dom.dataTheme ∧
    (domContentLoaded env s).storedTheme = s.storedTheme ∧
    (domContentLoaded env s).dom.toggleAriaChecked = s.dom.toggleAriaChecked ∧
    (domContentLoaded env s).dom.yearsEx = s.dom.yearsEx ∧
    (domContentLoaded env s).dom.yearsExHighlights = s.dom.yearsExHighlights := by
  have e : domContentLoaded env s = s := by
    rcases h with h | h <;> simp [domContentLoaded, h]
  simp [e]

/-- Witness for C10: the page has the toggle and both text elements but no
hamburger. -/
theorem early_return_changes_nothing_witness :
    (pageNoHamburger.toggle = true ∧ pageNoHamburger.yearsEx = some "0+" ∧
      pageNoHamburger.yearsExHighlights = some "0+") ∧
    (domContentLoaded darkEnv (pageLoad pageNoHamburger (some "dark")) =
        pageLoad pageNoHamburger (some "dark") ∧
      (domContentLoaded darkEnv (pageLoad pageNoHamburger (some "dark"))).dom.dataTheme =
        (pageLoad pageNoHamburger (some "dark")).dom.dataTheme ∧
      (domContentLoaded darkEnv (pageLoad pageNoHamburger (some "dark"))).storedTheme =
        (pageLoad pageNoHamburger (some "dark")).storedTheme ∧
      (domContentLoaded darkEnv (pageLoad pageNoHamburger (some "dark"))).dom.toggleAriaChecked =
        (pageLoad pageNoHamburger (some "dark")).dom.toggleAriaChecked ∧
      (domContentLoaded darkEnv (pageLoad pageNoHamburger (some "dark"))).dom.yearsEx =
        (pageLoad pageNoHamburger (some "dark")).dom.yearsEx ∧
      (domContentLoaded darkEnv (pageLoad pageNoHamburger (some "dark"))).dom.yearsExHighlights =
        (pageLoad pageNoHamburger (some "dark")).dom.yearsExHighlights) :=
  ⟨⟨rfl, rfl, rfl⟩,
    early_return_changes_nothing darkEnv (pageLoad pageNoHamburger (some "dark")) (Or.inl rfl)⟩

/-! ## Experience counter: theorems -/

/-- The year count in integer arithmetic. -/
theorem years_eq_ediv (env : Env) : years env = months env / 12 := by
  unfold years
  have h12 : (12 : ℚ) = ((12 : ℕ) : ℚ) := by norm_num
  rw [h12, Rat.floor_intCast_div_natCast]
  rfl

/-- C9: for the calendar year y and month m in 1..12 (so `getMonth()` is m - 1)
the text is the decimal rendering of floor(((y - 2015) * 12 + (m - 8)) / 12), floor
taken toward minus infinity, followed by a plus sign; the count is y - 2015 from
August on and y - 2016 before; the day of the month plays no role; every element
present receives that text; and 2024-03-15 gives "8+". -/
theorem experience_display (y : Int) (m d : Nat) (mm : Option Bool)
    (h1 : 1 ≤ m) (h12 : m ≤ 12) :
    display { matchMedia := mm, fullYear := y, month := m - 1, date := d } =
      numberToString (Int.floor ((((y - 2015) * 12 + ((m : Int) - 8) : Int) : ℚ) / 12)) ++ "+" ∧
    years { matchMedia := mm, fullYear := y, month := m - 1, date := d } =
      (if 8 ≤ m then y - 2015 else y - 2016) ∧
    (∀ d2 : Nat, display { matchMedia := mm, fullYear := y, month := m - 1, date := d2 } =
      display { matchMedia := mm, fullYear := y, month := m - 1, date := d }) ∧
    (∀ s : State,
      (experience { matchMedia := mm, fullYear := y, month := m - 1, date := d } s).dom.yearsEx =
        s.dom.yearsEx.map
          (fun _ => display { matchMedia := mm, fullYear := y, month := m - 1, date := d }) ∧
      (experience { matchMedia := mm, fullYear := y, month := m - 1, date := d }
          s).dom.yearsExHighlights =
        s.dom.yearsExHighlights.map
          (fun _ => display { matchMedia := mm, fullYear := y, month := m - 1, date := d })) ∧
    display { matchMedia := mm, fullYear := 2024, month := 3 - 1, date := 15 } = "8+" := by
  have hmonths : ∀ (yy : Int) (k dd : Nat), 1 ≤ k →
      months { matchMedia := mm, fullYear := yy, month := k - 1, date := dd } =
        (yy - 2015) * 12 + ((k : Int) - 8) := by
    intro yy k dd hk
    simp [months, startYear, startMonth]
    omega
  refine ⟨?_, ?_, ?_, ?_, ?_⟩
  · simp only [display, years, hmonths y m d h1]
  · rw [years_eq_ediv, hmonths y m d h1]
    split <;> omega
  · intro d2
    rfl
  · intro s
    exact ⟨rfl, rfl⟩
  · have hy : years { matchMedia := mm, fullYear := 2024, month := 3 - 1, date := 15 } = 8 := by
      rw [years_eq_ediv, hmonths 2024 3 15 (by norm_num)]
      norm_num
    simp only [display, hy]
    decide

/-- Witness for C9: March 2024. -/
theorem experience_display_witness :
    display { matchMedia := none, fullYear := 2024, month := 3 - 1, date := 15 } =
      numberToString (Int.floor ((((2024 - 2015) * 12 + (((3 : Nat) : Int) - 8) : Int) : ℚ) / 12))
        ++ "+" ∧
    years { matchMedia := none, fullYear := 2024, month := 3 - 1, date := 15 } =
      (if 8 ≤ 3 then 2024 - 2015 else 2024 - 2016) :=
  ⟨(experience_display 2024 3 15 none (by decide) (by decide)).1,
    (experience_display 2024 3 15 none (by decide) (by decide)).2.1⟩

/-! ## Anchor scroller: theorems -/

/-- Whatever the document, a fragment that matches nothing makes the handler
end in a TypeError, after the default was suppressed and without a scroll. -/
theorem anchorClick_of_no_match (q : String → Except JsError (Option Elem)) (href : String)
    (h : q href = .ok none) :
    anchorClick q href =
      { defaultPrevented := true, scrolledTo := none, thrown := some .typeError } := by
  simp [anchorClick, h]

/-- Whatever the document, a fragment that matches `el` makes the handler
suppress the default and scroll `el` into view. -/
theorem anchorClick_of_match (q : String → Except JsError (Option Elem)) (href : String)
    (el : Elem) (h : q href = .ok (some el)) :
    anchorClick q href =
      { defaultPrevented := true, scrolledTo := some el, thrown := none } := by
  simp [anchorClick, h]

/-- C2 at the failing input: in a document whose elements have the ids home and
about, a click on an anchor with href "#contact" finds no element and the handler
ends in a TypeError (the default suppressed, nothing scrolled), while a click on
href "#about" scrolls element 1 into view. -/
theorem anchorClick_dangling_throws :
    querySelectorById ["home", "about"] "#contact" = .ok none ∧
    anchorClick (querySelectorById ["home", "about"]) "#contact" =
      { defaultPrevented := true, scrolledTo := none, thrown := some .typeError } ∧
    anchorClick (querySelectorById ["home", "about"]) "#about" =
      { defaultPrevented := true, scrolledTo := some 1, thrown := none } := by
  refine ⟨by rfl, by rfl, by rfl⟩

/-! ## Backdrop: theorems -/

/-- C3 at the failing input: on the ready page, open, close, open by three
hamburger clicks and then the pending callbacks.  No prefix of the run has two
backdrops in the document, and right before the 260 ms callback the drawer is open
with one visible backdrop; but that callback, scheduled by the close, removes the
backdrop the second open reused: the run ends with the drawer open, nothing pending,
and no backdrop in the document.  The same holds when the 260 ms callback runs ahead
of the last frame callback. -/
theorem rapid_reopen_loses_backdrop :
    (∀ p ∈ rapidReopen.inits, (attachedBackdrops (run readyPage p)).length ≤ 1) ∧
    (∀ p ∈ rapidReopenTimerFirst.inits, (attachedBackdrops (run readyPage p)).length ≤ 1) ∧
    attachedBackdrops (run readyPage (rapidReopen.take 5)) =
      [{ id := 0, visible := true, attached := true }] ∧
    (run readyPage rapidReopen).dom.navActive = true ∧
    (run readyPage rapidReopen).frames = [] ∧
    (run readyPage rapidReopen).timers = 0 ∧
    attachedBackdrops (run readyPage rapidReopen) = [] ∧
    (run readyPage rapidReopenTimerFirst).dom.navActive = true ∧
    (run readyPage rapidReopenTimerFirst).frames = [] ∧
    (run readyPage rapidReopenTimerFirst).timers = 0 ∧
    attachedBackdrops (run readyPage rapidReopenTimerFirst) = [] := by
  refine ⟨by decide, by decide, by decide, by decide, by decide, by decide, by decide,
    by decide, by decide, by decide, by decide⟩

/-! ## Focus trap: theorems -/

/-- The trap either leaves the state alone or moves focus. -/
theorem trapListener_fst (s : State) (key : String) (shiftKey : Bool) :
    (trapListener s key shiftKey).1 = s ∨
      ∃ el, (trapListener s key shiftKey).1 = setActiveElement el s := by
  have hf : ∀ c : Candidate, focus c s = s ∨ ∃ el, focus c s = setActiveElement el s := by
    intro c
    unfold focus
    split
    · exact Or.inr ⟨_, rfl⟩
    · exact Or.inl rfl
  unfold trapListener
  split
  · exact Or.inl rfl
  · split
    · split
      · split
        · exact hf _
        · exact Or.inl rfl
      · split
        · exact hf _
        · exact Or.inl rfl
    · exact Or.inl rfl

/-- A property that focus moves keep is kept by the dispatch to the traps. -/
theorem foldl_trap_keeps (P : State → Prop) (hP : ∀ st el, P st → P (setActiveElement el st))
    (key : String) (shiftKey : Bool) (l : List Nat) :
    ∀ s : State, P s → P (l.foldl (fun st _ => (trapListener st key shiftKey).1) s) := by
  induction l with
  | nil => intro s h; exact h
  | cons a l ih =>
    intro s h
    simp only [List.foldl_cons]
    apply ih
    rcases trapListener_fst s key shiftKey with e | ⟨el, e⟩
    · rw [e]; exact h
    · rw [e]; exact hP s el h

/-- What the trap does when the first and the last element of the list are ones
the browser can focus: Tab without Shift on the last suppresses the default and
focuses the first; Shift+Tab on the first suppresses the default and focuses the
last; and whenever the default is suppressed the focused element is in the list. -/
theorem trapListener_wraps_of_focusable (s : State) (h : s.focusableElements ≠ [])
    (hf : (s.focusableElements.head h).focusable = true)
    (hl : (s.focusableElements.getLast h).focusable = true) :
    (s.dom.activeElement = some (s.focusableElements.getLast h).el →
      trapListener s "Tab" false =
        (setActiveElement (s.focusableElements.head h).el s, true)) ∧
    (s.dom.activeElement = some (s.focusableElements.head h).el →
      trapListener s "Tab" true =
        (setActiveElement (s.focusableElements.getLast h).el s, true)) ∧
    (∀ (key : String) (shiftKey : Bool), (trapListener s key shiftKey).2 = true →
      ∃ c ∈ s.focusableElements,
        (trapListener s key shiftKey).1.dom.activeElement = some c.el ∧
        (trapListener s key shiftKey).1.focusableElements = s.focusableElements) := by
  have hhead := List.head?_eq_head h
  have hlast := List.getLast?_eq_getLast s.focusableElements h
  refine ⟨?_, ?_, ?_⟩
  · intro ha
    simp [trapListener, hhead, hlast, ha, focus, hf]
  · intro ha
    simp [trapListener, hhead, hlast, ha, focus, hl]
  · intro key shiftKey hp
    by_cases hk : key = "Tab"
    · cases shiftKey
      · by_cases ha : s.dom.activeElement = some (s.focusableElements.getLast h).el
        · refine ⟨s.focusableElements.head h, List.head_mem h, ?_⟩
          simp [trapListener, hhead, hlast, ha, hk, focus, hf, setActiveElement]
        · simp [trapListener, hhead, hlast, ha, hk] at hp
      · by_cases ha : s.dom.activeElement = some (s.focusableElements.head h).el
        · refine ⟨s.focusableElements.getLast h, List.getLast_mem h, ?_⟩
          simp [trapListener, hhead, hlast, ha, hk, focus, hl, setActiveElement]
        · simp [trapListener, hhead, hlast, ha, hk] at hp
    · simp [trapListener, hk] at hp

/-- What the trap lets through, whatever the list: any key other than Tab, Tab
away from the last element and Shift+Tab away from the first leave the state as it
is and do not suppress the default; and with one trap registered a keydown other
than Escape does to the state exactly what the trap does. -/
theorem trapListener_passes (s : State) (h : s.focusableElements ≠ []) :
    (∀ (key : String) (shiftKey : Bool), key ≠ "Tab" → trapListener s key shiftKey = (s, false)) ∧
    (s.dom.activeElement ≠ some (s.focusableElements.getLast h).el →
      trapListener s "Tab" false = (s, false)) ∧
    (s.dom.activeElement ≠ some (s.focusableElements.head h).el →
      trapListener s "Tab" true = (s, false)) ∧
    (∀ (key : String) (shiftKey : Bool) (l : Nat), s.keydownTraps = [l] → key ≠ "Escape" →
      step s (.keydown key shiftKey) = (trapListener s key shiftKey).1) := by
  have hhead := List.head?_eq_head h
  have hlast := List.getLast?_eq_getLast s.focusableElements h
  refine ⟨?_, ?_, ?_, ?_⟩
  · intro key shiftKey hk
    simp [trapListener, hk]
  · intro ha
    simp [trapListener, hhead, hlast, ha]
  · intro ha
    simp [trapListener, hhead, hlast, ha]
  · intro key shiftKey l hl hk
    simp [step, keydown, hk, hl]

/-- C6 at the failing input: the drawer's first match of the selector of line 58
is a `div role="button"` without tabindex (element 1), followed by the links 2 and
3.  Opening by the hamburger (element 0) leaves focus on the hamburger, since
`focus()` on element 1 does nothing.  With focus on the last link 3, Tab without
Shift makes the trap suppress the default and call `focus()` on element 1, which
again does nothing: the state is unchanged and focus stays on 3 instead of moving to
the first element of the list. -/
theorem tab_on_last_stuck_when_first_inert :
    (step (domContentLoaded darkEnv (pageLoad pageInertButton none))
      .hamburgerClick).dom.activeElement = some 0 ∧
    inertButtonOnLast.dom.navActive = true ∧
    inertButtonOnLast.focusableElements.map (fun c => c.el) = [1, 2, 3] ∧
    inertButtonOnLast.dom.activeElement = some 3 ∧
    trapListener inertButtonOnLast "Tab" false = (inertButtonOnLast, true) ∧
    (step inertButtonOnLast (.keydown "Tab" false)).dom.activeElement = some 3 := by
  refine ⟨by decide, by decide, by decide, by decide, by rfl, by decide⟩

/-! ## Drawer: what `closeNav` and `openNav` leave behind -/

/-- After `closeNav` the nav has lost the class active. -/
theorem closeNav_navActive (s : State) : (closeNav s).dom.navActive = false := by
  unfold closeNav
  cases queryBackdrop s <;> cases ht : s.trapListener <;> cases hp : s.previousActive <;>
    simp [updateBackdrop, setActiveElement, ht, hp]

/-- After `closeNav` no trap is recorded. -/
theorem closeNav_trapListener (s : State) : (closeNav s).trapListener = none := by
  unfold closeNav
  cases queryBackdrop s <;> cases ht : s.trapListener <;> cases hp : s.previousActive <;>
    simp [updateBackdrop, setActiveElement, ht, hp]

/-- The only traps `closeNav` unregisters are copies of the recorded one. -/
theorem closeNav_keydownTraps (s : State) :
    (closeNav s).keydownTraps =
      (match s.trapListener with
       | some l => s.keydownTraps.filter (fun x => x ≠ l)
       | none => s.keydownTraps) := by
  unfold closeNav
  cases queryBackdrop s <;> cases ht : s.trapListener <;> cases hp : s.previousActive <;>
    simp [updateBackdrop, setActiveElement, ht, hp]

/-- With an element recorded, `closeNav` ends with focus on it. -/
theorem closeNav_activeElement (s : State) (e : Elem) (h : s.previousActive = some e) :
    (closeNav s).dom.activeElement = some e := by
  unfold closeNav
  cases queryBackdrop s <;> cases ht : s.trapListener <;>
    simp [updateBackdrop, setActiveElement, ht, h]

/-- After `createBackdrop` the document holds a backdrop. -/
theorem queryBackdrop_createBackdrop (s : State) :
    (queryBackdrop (createBackdrop s).2).isSome = true := by
  unfold createBackdrop
  cases hq : queryBackdrop s with
  | some b => simp [hq]
  | none =>
    simp only [queryBackdrop] at hq ⊢
    simp [List.find?_append, hq]

/-- The fields `createBackdrop` does not write. -/
theorem createBackdrop_rest (s : State) :
    (createBackdrop s).2.wired = s.wired ∧
    (createBackdrop s).2.dom.activeElement = s.dom.activeElement ∧
    (createBackdrop s).2.dom.navActive = s.dom.navActive ∧
    (createBackdrop s).2.trapListener = s.trapListener ∧
    (createBackdrop s).2.keydownTraps = s.keydownTraps ∧
    (createBackdrop s).2.nextClosure = s.nextClosure := by
  unfold createBackdrop
  cases queryBackdrop s <;> simp

/-- What `openNav` leaves in the fields the proofs below read. -/
theorem openNav_fields (s : State) :
    (openNav s).wired = s.wired ∧
    (openNav s).dom.navActive = true ∧
    (openNav s).previousActive = s.dom.activeElement ∧
    (openNav s).dom.backdrops = (createBackdrop s).2.dom.backdrops ∧
    (openNav s).trapListener = some s.nextClosure ∧
    (openNav s).keydownTraps = s.keydownTraps ++ [s.nextClosure] := by
  obtain ⟨h1, h2, _, _, h5, h6⟩ := createBackdrop_rest s
  unfold openNav
  cases hf : collectFocusable (createBackdrop s).2 with
  | nil => simp [hf, h1, h2, h5, h6]
  | cons c cs =>
    cases hc : c.focusable <;> simp [hf, focus, setActiveElement, hc, h1, h2, h5, h6]

/-! ## Focus restoration: theorems -/

/-- Opening establishes `OpenedFrom` for the element that had focus. -/
theorem openedFrom_openNav (s : State) (e : Elem) (hw : s.wired = true)
    (he : s.dom.activeElement = some e) : OpenedFrom e (openNav s) := by
  obtain ⟨h1, h2, h3, h4, _, _⟩ := openNav_fields s
  refine ⟨by rw [h1, hw], h2, by rw [h3, he], ?_⟩
  have hq := queryBackdrop_createBackdrop s
  simp only [queryBackdrop] at hq ⊢
  rw [h4]
  exact hq

/-- A focus move keeps `OpenedFrom`. -/
theorem openedFrom_focus (e : Elem) (s : State) (el : Elem) (h : OpenedFrom e s) :
    OpenedFrom e (setActiveElement el s) := by
  obtain ⟨h1, h2, h3, h4⟩ := h
  exact ⟨h1, h2, h3, h4⟩

/-- An event that leaves the drawer open keeps `OpenedFrom`. -/
theorem openedFrom_step (e : Elem) (s : State) (ev : Event) (hev : staysOpen ev = true)
    (h : OpenedFrom e s) : OpenedFrom e (step s ev) := by
  cases ev with
  | focusMove el => exact openedFrom_focus e s el h
  | keydown key shiftKey =>
    have hk : key ≠ "Escape" := by simpa [staysOpen] using hev
    simp only [step, keydown, hk, decide_False, Bool.and_false, Bool.false_eq_true, if_false]
    exact foldl_trap_keeps (OpenedFrom e) (fun st el hst => openedFrom_focus e st el hst)
      key shiftKey _ s h
  | hamburgerClick => simp [staysOpen] at hev
  | backdropClick => simp [staysOpen] at hev
  | linkClick => simp [staysOpen] at hev
  | toggleClick => simp [staysOpen] at hev
  | animationFrame => simp [staysOpen] at hev
  | timeout => simp [staysOpen] at hev

/-- A sequence of such events keeps `OpenedFrom`. -/
theorem openedFrom_run (e : Elem) (evs : List Event) :
    ∀ s : State, (∀ ev ∈ evs, staysOpen ev = true) → OpenedFrom e s → OpenedFrom e (run s evs) := by
  induction evs with
  | nil => intro s _ h; exact h
  | cons ev evs ih =>
    intro s hevs h
    simp only [run, List.foldl_cons]
    exact ih (step s ev) (fun x hx => hevs x (List.mem_cons_of_mem ev hx))
      (openedFrom_step e s ev (hevs ev (List.mem_cons_self ev evs)) h)

/-- On Escape every trap returns at once, so the dispatch to the traps changes
nothing. -/
theorem foldl_trap_escape (l : List Nat) (shiftKey : Bool) :
    ∀ s : State, l.foldl (fun st _ => (trapListener st "Escape" shiftKey).1) s = s := by
  induction l with
  | nil => intro s; rfl
  | cons a l ih =>
    intro s
    simp only [List.foldl_cons]
    have : (trapListener s "Escape" shiftKey).1 = s := by simp [trapListener]
    rw [this]
    exact ih s

/-- On an open drawer every closing trigger amounts to one call of `closeNav`. -/
theorem close_of_openedFrom (e : Elem) (s : State) (t : Event) (ht : closeTrigger t = true)
    (h : OpenedFrom e s) : step s t = closeNav s := by
  obtain ⟨h1, h2, _, h4⟩ := h
  cases t with
  | hamburgerClick => simp [step, h1, h2]
  | backdropClick => simp [step, h1, h4]
  | linkClick => simp [step, h1]
  | keydown key shiftKey =>
    have hk : key = "Escape" := by simpa [closeTrigger] using ht
    subst hk
    simp only [step, keydown, h1, decide_True, Bool.and_self, if_true]
    exact foldl_trap_escape _ shiftKey (closeNav s)
  | toggleClick => simp [closeTrigger] at ht
  | animationFrame => simp [closeTrigger] at ht
  | timeout => simp [closeTrigger] at ht
  | focusMove el => simp [closeTrigger] at ht

/-- C7: let `e` have focus when a hamburger click opens the closed drawer.  After
any sequence of focus moves and keydowns other than Escape, each closing trigger
(hamburger again, backdrop click, drawer link click, Escape) closes the drawer and
leaves focus on `e`. -/
theorem focus_restored_on_close (s : State) (e : Elem) (evs : List Event) (t : Event)
    (hw : s.wired = true) (hc : s.dom.navActive = false) (he : s.dom.activeElement = some e)
    (hevs : ∀ ev ∈ evs, staysOpen ev = true) (ht : closeTrigger t = true) :
    (step s .hamburgerClick).dom.navActive = true ∧
    (run (step s .hamburgerClick) evs).dom.navActive = true ∧
    (step (run (step s .hamburgerClick) evs) t).dom.navActive = false ∧
    (step (run (step s .hamburgerClick) evs) t).dom.activeElement = some e := by
  have hopen : step s .hamburgerClick = openNav s := by simp [step, hw, hc]
  have h0 : OpenedFrom e (step s .hamburgerClick) := by
    rw [hopen]; exact openedFrom_openNav s e hw he
  have h1 := openedFrom_run e evs _ hevs h0
  refine ⟨h0.2.1, h1.2.1, ?_, ?_⟩
  · rw [close_of_openedFrom e _ t ht h1]
    exact closeNav_navActive _
  · rw [close_of_openedFrom e _ t ht h1]
    exact closeNav_activeElement _ e h1.2.2.1

/-- Witness for C7: on the ready page the hamburger (element 0) has focus; the
drawer is opened, focus wraps backwards, moves to field 9, and Escape closes. -/
theorem focus_restored_on_close_witness :
    (step (run (step readyPage .hamburgerClick) [.keydown "Tab" true, .focusMove 9])
      (.keydown "Escape" false)).dom.activeElement = some 0 :=
  (focus_restored_on_close readyPage 0 [.keydown "Tab" true, .focusMove 9]
    (.keydown "Escape" false) (by decide) (by decide) (by decide) (by decide) (by decide)).2.2.2

/-! ## Trap listener invariant: theorems -/

/-- The invariant reads three fields only. -/
theorem trapInv_of_fields (s t : State) (h1 : t.dom.navActive = s.dom.navActive)
    (h2 : t.trapListener = s.trapListener) (h3 : t.keydownTraps = s.keydownTraps)
    (h : TrapInv s) : TrapInv t := by
  unfold TrapInv at h ⊢
  rw [h1, h2, h3]
  exact h

/-- Closing keeps the invariant. -/
theorem trapInv_closeNav (s : State) (h : TrapInv s) : TrapInv (closeNav s) := by
  left
  refine ⟨closeNav_navActive s, closeNav_trapListener s, ?_⟩
  rw [closeNav_keydownTraps]
  rcases h with ⟨_, h2, h3⟩ | ⟨l, _, h2, h3⟩
  · simp [h2, h3]
  · simp [h2, h3]

/-- Opening a closed drawer keeps the invariant. -/
theorem trapInv_openNav (s : State) (hc : s.dom.navActive = false) (h : TrapInv s) :
    TrapInv (openNav s) := by
  obtain ⟨_, h2, _, _, h5, h6⟩ := openNav_fields s
  right
  refine ⟨s.nextClosure, h2, h5, ?_⟩
  rcases h with ⟨_, _, h3⟩ | ⟨l, ho, _, _⟩
  · rw [h6, h3]; rfl
  · rw [hc] at ho; cases ho

/-- A focus move keeps the invariant. -/
theorem trapInv_focus (s : State) (el : Elem) (h : TrapInv s) :
    TrapInv (setActiveElement el s) :=
  trapInv_of_fields s _ rfl rfl rfl h

/-- The frame callbacks write backdrops only. -/
theorem foldl_showBackdrop_fields (l : List Nat) :
    ∀ s : State,
      (l.foldl (fun st i => showBackdrop i st) s).dom.navActive = s.dom.navActive ∧
      (l.foldl (fun st i => showBackdrop i st) s).trapListener = s.trapListener ∧
      (l.foldl (fun st i => showBackdrop i st) s).keydownTraps = s.keydownTraps := by
  induction l with
  | nil => intro s; exact ⟨rfl, rfl, rfl⟩
  | cons a l ih =>
    intro s
    simp only [List.foldl_cons]
    obtain ⟨h1, h2, h3⟩ := ih (showBackdrop a s)
    exact ⟨h1, h2, h3⟩

/-- Every event keeps the invariant. -/
theorem trapInv_step (s : State) (ev : Event) (h : TrapInv s) : TrapInv (step s ev) := by
  cases ev with
  | hamburgerClick =>
    simp only [step]
    split
    · split
      · exact trapInv_closeNav s h
      · next hn => exact trapInv_openNav s (by simpa using hn) h
    · exact h
  | backdropClick =>
    simp only [step]
    split
    · exact trapInv_closeNav s h
    · exact h
  | linkClick =>
    simp only [step]
    split
    · exact trapInv_closeNav s h
    · exact h
  | keydown key shiftKey =>
    simp only [step, keydown]
    apply foldl_trap_keeps TrapInv trapInv_focus
    split
    · exact trapInv_closeNav s h
    · exact h
  | toggleClick =>
    simp only [step]
    split
    · exact trapInv_of_fields s _ rfl rfl rfl h
    · exact h
  | animationFrame =>
    obtain ⟨h1, h2, h3⟩ := foldl_showBackdrop_fields s.frames s
    exact trapInv_of_fields s _ h1 h2 h3 h
  | timeout =>
    simp only [step]
    split
    · exact h
    · refine trapInv_of_fields s _ ?_ ?_ ?_ h <;>
        (unfold removeBackdrop; cases queryBackdrop s <;> simp [updateBackdrop])
  | focusMove el => exact trapInv_focus s el h

/-- Every sequence of events keeps the invariant. -/
theorem trapInv_run (evs : List Event) : ∀ s : State, TrapInv s → TrapInv (run s evs) := by
  induction evs with
  | nil => intro s h; exact h
  | cons ev evs ih =>
    intro s h
    simp only [run, List.foldl_cons]
    exact ih (step s ev) (trapInv_step s ev h)

/-- The handler leaves a page with a closed drawer in the invariant. -/
theorem trapInv_startup (env : Env) (dom : Dom) (stored : Option String)
    (hc : dom.navActive = false) : TrapInv (domContentLoaded env (pageLoad dom stored)) := by
  left
  unfold domContentLoaded
  split
  · exact ⟨hc, rfl, rfl⟩
  · cases ht : dom.toggle <;>
      simp [pruneNav, pageLoad, experience, themeInit, setTheme, ht, hc]

/-- C8: start from a page whose drawer is closed, run the handler, then any
finite sequence of events (hamburger, backdrop and link clicks, Escape and any other
keydown, toggle clicks, focus moves, frame and timer callbacks).  In the state
reached a trap is registered on the document exactly when the nav has the class
active and a trap is recorded; the nav is active exactly when a trap is recorded;
the registered traps are the recorded one and nothing else; and there is at most
one. -/
theorem trap_registered_iff_open (env : Env) (dom : Dom) (stored : Option String)
    (evs : List Event) (hc : dom.navActive = false) :
    ((∃ l, l ∈ (run (domContentLoaded env (pageLoad dom stored)) evs).keydownTraps) ↔
      ((run (domContentLoaded env (pageLoad dom stored)) evs).dom.navActive = true ∧
        (run (domContentLoaded env (pageLoad dom stored)) evs).trapListener ≠ none)) ∧
    ((run (domContentLoaded env (pageLoad dom stored)) evs).dom.navActive = true ↔
      (run (domContentLoaded env (pageLoad dom stored)) evs).trapListener ≠ none) ∧
    (run (domContentLoaded env (pageLoad dom stored)) evs).keydownTraps =
      (run (domContentLoaded env (pageLoad dom stored)) evs).trapListener.toList ∧
    (run (domContentLoaded env (pageLoad dom stored)) evs).keydownTraps.length ≤ 1 := by
  have h := trapInv_run evs _ (trapInv_startup env dom stored hc)
  rcases h with ⟨h1, h2, h3⟩ | ⟨l, h1, h2, h3⟩
  · simp [h1, h2, h3]
  · simp [h1, h2, h3]

/-- Witness for C8: the full page through an open, a Tab, a close by Escape and
a reopen. -/
theorem trap_registered_iff_open_witness :
    (run (domContentLoaded darkEnv (pageLoad fullPage none))
      [.hamburgerClick, .keydown "Tab" false, .keydown "Escape" false,
        .hamburgerClick]).keydownTraps.length ≤ 1 :=
  (trap_registered_iff_open darkEnv fullPage none
    [.hamburgerClick, .keydown "Tab" false, .keydown "Escape" false, .hamburgerClick]
    (by decide)).2.2.2

end Script
